import Mathlib

/-!
Verification of the house-price prediction core of the repository
(`src/api/inference.py` and `src/api/schemas.py`), as a shallow embedding.
Python floats are modelled as rationals, Python exceptions as `Except`,
and the opaque transform/scoring artifacts as function parameters
bundled in an `Artifacts` structure.  The current calendar year
(`datetime.now().year`) and the prediction timestamp
(`datetime.now().isoformat()`) are explicit parameters.
-/

namespace MLOpsLab

/-- Model of `HousePredictionRequest` (src/api/schemas.py, lines 4-11).
All seven fields are required by the schema; bounds are checked by
`validRequest` below. -/
structure HousePredictionRequest where
  sqft : ℚ
  bedrooms : ℤ
  bathrooms : ℚ
  location : String
  year_built : ℤ
  condition : String
  price_per_sqft : ℚ
  deriving DecidableEq

/-- Model of `PredictionResponse` (src/api/schemas.py, lines 26-30).
The `features_importance` dict is modelled as an association list. -/
structure PredictionResponse where
  predicted_price : ℚ
  confidence_interval : List ℚ
  features_importance : List (String × ℚ)
  prediction_time : String
  deriving DecidableEq

/-- Error taxonomy for the core, following the spec (§7): the code raises
plain exceptions (a pydantic ValidationError at the schema boundary, and
`Exception("Prediction failed: " + cause)` in `predict_price`); each
constructor carries the message string of the corresponding exception. -/
inductive PredictionError where
  | invalidInput (msg : String)
  | predictionFailed (cause : String)
  deriving DecidableEq

/-- The membership test performed by the `Literal[...]` type of the
`location` field (src/api/schemas.py, line 8). -/
def validLocation (loc : String) : Bool :=
  loc == "Rural" || loc == "Suburb" || loc == "Urban" ||
  loc == "Downtown" || loc == "Waterfront" || loc == "Mountain"

/-- The membership test performed by the `Literal[...]` type of the
`condition` field (src/api/schemas.py, line 10). -/
def validCondition (cond : String) : Bool :=
  cond == "Poor" || cond == "Fair" || cond == "Good" || cond == "Excellent"

/-- The field bounds declared by the pydantic schema
(src/api/schemas.py, lines 5-11): `sqft` in (1000, 5000), `bedrooms` in
[1, 6], `bathrooms` in (0.5, 5], `year_built` in [1945, 2023],
`price_per_sqft` in (50, 1000), and the two `Literal` enumerations. -/
def validRequest (r : HousePredictionRequest) : Bool :=
  decide (1000 < r.sqft) && decide (r.sqft < 5000) &&
  decide (1 ≤ r.bedrooms) && decide (r.bedrooms ≤ 6) &&
  decide (1/2 < r.bathrooms) && decide (r.bathrooms ≤ 5) &&
  validLocation r.location &&
  decide (1945 ≤ r.year_built) && decide (r.year_built ≤ 2023) &&
  validCondition r.condition &&
  decide (50 < r.price_per_sqft) && decide (r.price_per_sqft < 1000)

/-- Pydantic validation at the schema boundary: a request whose fields
violate the declared bounds never reaches `predict_price`; it is rejected
with a ValidationError, modelled as `PredictionError.invalidInput`. -/
def validateRequest (r : HousePredictionRequest) :
    Except PredictionError HousePredictionRequest :=
  if validRequest r then .ok r else .error (.invalidInput "Input validation failed")

/-- The feature record (pandas row) built by `predict_price`
(src/api/inference.py, lines 27-63): the six raw fields plus the derived
`house_age`, `bed_bath_ratio` and `price_per_sqft` columns. -/
structure FeatureRecord where
  sqft : ℚ
  bedrooms : ℤ
  bathrooms : ℚ
  location : String
  year_built : ℤ
  condition : String
  house_age : ℤ
  bed_bath_ratio : ℚ
  price_per_sqft : ℚ
  deriving DecidableEq

/-- The `location_price_estimates` dict (src/api/inference.py, lines 42-49). -/
def locationPriceEstimates (loc : String) : Option ℚ :=
  match loc with
  | "Rural" => some 180
  | "Suburb" => some 320
  | "Urban" => some 280
  | "Downtown" => some 350
  | "Waterfront" => some 450
  | "Mountain" => some 250
  | _ => none

/-- The `condition_multipliers` dict (src/api/inference.py, lines 51-56). -/
def conditionMultipliers (cond : String) : Option ℚ :=
  match cond with
  | "Poor" => some (7/10)
  | "Fair" => some (17/20)
  | "Good" => some 1
  | "Excellent" => some (13/10)
  | _ => none

/-- `estimated_price_per_sqft` (src/api/inference.py, lines 58-61):
`dict.get(location, 300) * dict.get(condition, 1.0)`. -/
def estimatedPricePerSqft (loc cond : String) : ℚ :=
  (locationPriceEstimates loc).getD 300 * (conditionMultipliers cond).getD 1

/-- Steps 1-3 of `predict_price` (src/api/inference.py, lines 27-63):
build the input row, derive `house_age = current_year - year_built` and
`bed_bath_ratio = bedrooms / bathrooms`, then set `price_per_sqft` to the
location/condition estimate (the caller-supplied field is not read). -/
def deriveFeatures (currentYear : ℤ) (r : HousePredictionRequest) : FeatureRecord :=
  { sqft := r.sqft
    bedrooms := r.bedrooms
    bathrooms := r.bathrooms
    location := r.location
    year_built := r.year_built
    condition := r.condition
    house_age := currentYear - r.year_built
    bed_bath_ratio := (r.bedrooms : ℚ) / r.bathrooms
    price_per_sqft := estimatedPricePerSqft r.location r.condition }

/-- The opaque fitted artifacts (spec §3): `preprocessor.transform` and
`model.predict(...)[0]`, each of which may raise, modelled as functions
returning `Except` with the exception message. -/
structure Artifacts where
  transform : FeatureRecord → Except String (List ℚ)
  score : List ℚ → Except String ℚ

/-- Round a rational to the nearest integer with ties to even, the
behaviour of Python `round` on a decimal value. -/
def roundHalfEven (x : ℚ) : ℤ :=
  if x - ⌊x⌋ < 1/2 then ⌊x⌋
  else if 1/2 < x - ⌊x⌋ then ⌊x⌋ + 1
  else if 2 ∣ ⌊x⌋ then ⌊x⌋ else ⌊x⌋ + 1

/-- Python `round(x, 2)`: round to two decimal places. -/
def round2 (x : ℚ) : ℚ := (roundHalfEven (x * 100) : ℚ) / 100

/-- `predict_price` (src/api/inference.py, lines 21-93): derive the
feature row, apply the preprocessor, score, round to two decimals, and
build the response with a ±10% confidence interval, empty
`features_importance` and the current timestamp.  Any exception raised by
transform or score is caught by the enclosing `try` and re-raised as
`Exception("Prediction failed: " + cause)`, modelled as
`PredictionError.predictionFailed cause`. -/
def predict_price (A : Artifacts) (currentYear : ℤ) (now : String)
    (request : HousePredictionRequest) : Except PredictionError PredictionResponse :=
  match A.transform (deriveFeatures currentYear request) with
  | .error e => .error (.predictionFailed e)
  | .ok processed_features =>
    match A.score processed_features with
    | .error e => .error (.predictionFailed e)
    | .ok raw =>
      .ok { predicted_price := round2 raw
            confidence_interval :=
              [round2 (round2 raw * (9/10)), round2 (round2 raw * (11/10))]
            features_importance := []
            prediction_time := now }

/-- The full per-request path: pydantic validation at the schema boundary
followed by `predict_price`. -/
def handleRequest (A : Artifacts) (currentYear : ℤ) (now : String)
    (request : HousePredictionRequest) : Except PredictionError PredictionResponse :=
  match validateRequest request with
  | .error e => .error e
  | .ok r => predict_price A currentYear now r

/-- `batch_predict` (src/api/inference.py, lines 95-99): the list
comprehension `[predict_price(req) for req in requests]` evaluated left to
right; the first exception aborts the whole batch. -/
def batch_predict (A : Artifacts) (currentYear : ℤ) (now : String) :
    List HousePredictionRequest → Except PredictionError (List PredictionResponse)
  | [] => .ok []
  | req :: rest =>
    match predict_price A currentYear now req with
    | .error e => .error e
    | .ok resp =>
      match batch_predict A currentYear now rest with
      | .error e => .error e
      | .ok resps => .ok (resp :: resps)

/-- The timestamp-independent part of a response: predicted price and
confidence interval. -/
def responseCore (resp : PredictionResponse) : ℚ × List ℚ :=
  (resp.predicted_price, resp.confidence_interval)

/-- Outcome of the module-level artifact load (src/api/inference.py,
lines 13-19): either both artifacts, or a fatal startup error. -/
inductive StartupResult (μ π : Type) where
  | ok (model : μ) (preprocessor : π)
  | fatal (msg : String)
  deriving DecidableEq

/-- The module-level `try` block (src/api/inference.py, lines 13-19):
load the model, then the preprocessor; any exception is re-raised as
`RuntimeError("Error loading model or preprocessor: " + msg)`. -/
def moduleInit {μ π : Type} (loadModel : Except String μ)
    (loadPreprocessor : Except String π) : StartupResult μ π :=
  match loadModel with
  | .error e => .fatal ("Error loading model or preprocessor: " ++ e)
  | .ok m =>
    match loadPreprocessor with
    | .error e => .fatal ("Error loading model or preprocessor: " ++ e)
    | .ok p => .ok m p

/-- The serving gate: requests are handled only when module initialization
succeeded; a fatal startup error means no request is ever served. -/
def serve {μ π α : Type} (init : StartupResult μ π) (handler : μ → π → α) :
    Option α :=
  match init with
  | .ok m p => some (handler m p)
  | .fatal _ => none

/-- A well-formed request matching the documented schema example
(src/api/schemas.py, lines 15-23). -/
def goodRequest : HousePredictionRequest :=
  { sqft := 1527, bedrooms := 2, bathrooms := 3/2, location := "Suburb"
    year_built := 1956, condition := "Good", price_per_sqft := 320 }

/-- A schema-valid request whose caller-supplied `price_per_sqft` (999)
differs from the location/condition estimate (320). -/
def cexRequest : HousePredictionRequest :=
  { sqft := 1527, bedrooms := 2, bathrooms := 3/2, location := "Suburb"
    year_built := 1956, condition := "Good", price_per_sqft := 999 }

/-- A request with zero bathrooms (violates the schema bound 0.5 < bathrooms). -/
def zeroBathRequest : HousePredictionRequest :=
  { sqft := 1527, bedrooms := 2, bathrooms := 0, location := "Suburb"
    year_built := 1956, condition := "Good", price_per_sqft := 320 }

/-- A request whose construction year lies in the future (violates the
schema bound year_built ≤ 2023). -/
def futureRequest : HousePredictionRequest :=
  { sqft := 1527, bedrooms := 2, bathrooms := 3/2, location := "Suburb"
    year_built := 2030, condition := "Good", price_per_sqft := 320 }

/-- Concrete artifacts whose transform and score always succeed, scoring
every input at 100. -/
def okArtifacts : Artifacts :=
  { transform := fun _ => .ok [1], score := fun _ => .ok 100 }

/-- The response produced by `okArtifacts` at timestamp "t". -/
def goodResponse : PredictionResponse :=
  { predicted_price := 100, confidence_interval := [90, 110]
    features_importance := [], prediction_time := "t" }

/-! ## Helper lemmas -/

/-- `roundHalfEven` never rounds below the floor. -/
theorem floor_le_roundHalfEven (x : ℚ) : ⌊x⌋ ≤ roundHalfEven x := by
  unfold roundHalfEven
  split
  · exact le_refl _
  split
  · omega
  split <;> omega

/-- `roundHalfEven` never rounds above the ceiling. -/
theorem roundHalfEven_le_floor_add_one (x : ℚ) : roundHalfEven x ≤ ⌊x⌋ + 1 := by
  unfold roundHalfEven
  split
  · omega
  split
  · omega
  split <;> omega

/-- `roundHalfEven` is the identity on integers. -/
theorem roundHalfEven_intCast (k : ℤ) : roundHalfEven (k : ℚ) = k := by
  unfold roundHalfEven
  rw [Int.floor_intCast]
  norm_num

/-- Rounding 0.9·k to the nearest integer stays at or below k when k ≥ 0. -/
theorem roundHalfEven_nine_tenths_le (k : ℤ) (hk : 0 ≤ k) :
    roundHalfEven ((9 * k : ℤ) / (10 : ℚ)) ≤ k := by
  rcases eq_or_lt_of_le hk with h0 | hpos
  · have h : ((9 * k : ℤ) : ℚ) / 10 = ((0 : ℤ) : ℚ) := by
      rw [← h0]; norm_num
    rw [h, roundHalfEven_intCast]
    omega
  · have hfl : ⌊((9 * k : ℤ) : ℚ) / 10⌋ < k := by
      rw [Int.floor_lt]
      rw [div_lt_iff₀ (by norm_num : (0:ℚ) < 10)]
      have hposQ : (0:ℚ) < (k : ℚ) := by exact_mod_cast hpos
      push_cast
      linarith
    have := roundHalfEven_le_floor_add_one (((9 * k : ℤ) : ℚ) / 10)
    omega

/-- Rounding 1.1·k to the nearest integer stays at or above k when k ≥ 0. -/
theorem le_roundHalfEven_eleven_tenths (k : ℤ) (hk : 0 ≤ k) :
    k ≤ roundHalfEven ((11 * k : ℤ) / (10 : ℚ)) := by
  have hfl : k ≤ ⌊((11 * k : ℤ) : ℚ) / 10⌋ := by
    rw [Int.le_floor]
    rw [le_div_iff₀ (by norm_num : (0:ℚ) < 10)]
    have hkQ : (0:ℚ) ≤ (k : ℚ) := by exact_mod_cast hk
    push_cast
    linarith
  have := floor_le_roundHalfEven (((11 * k : ℤ) : ℚ) / 10)
  omega

/-- For a nonnegative two-decimal price, the rounded ±10% band brackets it. -/
theorem round2_bracket (q : ℚ) (h : 0 ≤ round2 q) :
    round2 (round2 q * (9/10)) ≤ round2 q ∧
    round2 q ≤ round2 (round2 q * (11/10)) := by
  have hp : round2 q = ((roundHalfEven (q * 100) : ℤ) : ℚ) / 100 := rfl
  have hk0 : 0 ≤ roundHalfEven (q * 100) := by
    rw [hp] at h
    have hcast : (0:ℚ) ≤ ((roundHalfEven (q * 100) : ℤ) : ℚ) := by linarith
    exact_mod_cast hcast
  constructor
  · have harg : ((roundHalfEven (q * 100) : ℤ) : ℚ) / 100 * (9/10) * 100
        = ((9 * roundHalfEven (q * 100) : ℤ) : ℚ) / 10 := by
      push_cast
      ring
    rw [hp]
    show ((roundHalfEven (((roundHalfEven (q * 100) : ℤ) : ℚ) / 100 * (9/10) * 100) : ℤ) : ℚ) / 100
        ≤ ((roundHalfEven (q * 100) : ℤ) : ℚ) / 100
    rw [harg]
    gcongr
    exact_mod_cast roundHalfEven_nine_tenths_le (roundHalfEven (q * 100)) hk0
  · have harg : ((roundHalfEven (q * 100) : ℤ) : ℚ) / 100 * (11/10) * 100
        = ((11 * roundHalfEven (q * 100) : ℤ) : ℚ) / 10 := by
      push_cast
      ring
    rw [hp]
    show ((roundHalfEven (q * 100) : ℤ) : ℚ) / 100
        ≤ ((roundHalfEven (((roundHalfEven (q * 100) : ℤ) : ℚ) / 100 * (11/10) * 100) : ℤ) : ℚ) / 100
    rw [harg]
    gcongr
    exact_mod_cast le_roundHalfEven_eleven_tenths (roundHalfEven (q * 100)) hk0

/-- Bounds extracted from a request that passed schema validation. -/
theorem validRequest_facts (r : HousePredictionRequest) (hv : validRequest r = true) :
    1/2 < r.bathrooms ∧ 1945 ≤ r.year_built ∧ r.year_built ≤ 2023 := by
  unfold validRequest at hv
  simp only [Bool.and_eq_true, decide_eq_true_eq] at hv
  exact ⟨hv.1.1.1.1.1.1.1.2, hv.1.1.1.1.2, hv.1.1.1.2⟩

/-! ## Claims -/

/-- Claim C1, counterexample: the claim says a caller-supplied
`price_per_sqft` is passed through unchanged into the feature record, but
`predict_price` always overwrites the column with the location/condition
estimate.  `cexRequest` is schema-valid with `price_per_sqft = 999`, yet
the derived feature record carries 320, not 999. -/
theorem C1_counterexample :
    validRequest cexRequest = true ∧
    cexRequest.price_per_sqft = 999 ∧
    (deriveFeatures 2026 cexRequest).price_per_sqft = 320 ∧
    (deriveFeatures 2026 cexRequest).price_per_sqft ≠ cexRequest.price_per_sqft := by
  refine ⟨?_, rfl, ?_, ?_⟩
  · norm_num [validRequest, validLocation, validCondition, cexRequest]
  · norm_num [deriveFeatures, estimatedPricePerSqft, locationPriceEstimates,
      conditionMultipliers, cexRequest]
  · norm_num [deriveFeatures, estimatedPricePerSqft, locationPriceEstimates,
      conditionMultipliers, cexRequest]

/-- Claim C1, amended: the feature record's `price_per_sqft` is always the
location/condition estimate; the caller-supplied field is ignored, so the
whole prediction is independent of it. -/
theorem C1_price_per_sqft_overwritten (A : Artifacts) (y : ℤ) (now : String)
    (r : HousePredictionRequest) (q : ℚ) :
    (deriveFeatures y r).price_per_sqft = estimatedPricePerSqft r.location r.condition ∧
    predict_price A y now { r with price_per_sqft := q } = predict_price A y now r :=
  ⟨rfl, rfl⟩

/-- Claim C2: on every successful prediction with a nonnegative predicted
price, the confidence interval is exactly
`[round2(price × 0.9), round2(price × 1.1)]` and brackets the price. -/
theorem C2_confidence_interval (A : Artifacts) (y : ℤ) (now : String)
    (r : HousePredictionRequest) (resp : PredictionResponse)
    (hok : predict_price A y now r = .ok resp)
    (hnn : 0 ≤ resp.predicted_price) :
    resp.confidence_interval =
      [round2 (resp.predicted_price * (9/10)), round2 (resp.predicted_price * (11/10))] ∧
    round2 (resp.predicted_price * (9/10)) ≤ resp.predicted_price ∧
    resp.predicted_price ≤ round2 (resp.predicted_price * (11/10)) := by
  unfold predict_price at hok
  split at hok
  · simp at hok
  split at hok
  · simp at hok
  rename_i raw heq
  rw [Except.ok.injEq] at hok
  subst hok
  exact ⟨rfl, round2_bracket raw hnn⟩

/-- Claim C2, witness at the constant-100 scoring artifact. -/
theorem C2_witness :
    goodResponse.confidence_interval =
      [round2 (goodResponse.predicted_price * (9/10)),
       round2 (goodResponse.predicted_price * (11/10))] ∧
    round2 (goodResponse.predicted_price * (9/10)) ≤ goodResponse.predicted_price ∧
    goodResponse.predicted_price ≤ round2 (goodResponse.predicted_price * (11/10)) :=
  C2_confidence_interval okArtifacts 2026 "t" goodRequest goodResponse
    (by simp [predict_price, okArtifacts, goodResponse]
        norm_num [round2, roundHalfEven])
    (by norm_num [goodResponse])

/-- Claim C3: `bed_bath_ratio` is bedrooms ÷ bathrooms; a request with
zero bathrooms is rejected with an InvalidInput error at the schema
boundary (bound `0.5 < bathrooms`), and every request that reaches the
derivation has strictly positive bathrooms, so the ratio is a genuine
finite quotient (`ratio × bathrooms = bedrooms`). -/
theorem C3_bed_bath_ratio (A : Artifacts) (y : ℤ) (now : String)
    (r : HousePredictionRequest) :
    (deriveFeatures y r).bed_bath_ratio = (r.bedrooms : ℚ) / r.bathrooms ∧
    (r.bathrooms = 0 →
      handleRequest A y now r = .error (.invalidInput "Input validation failed")) ∧
    (validRequest r = true →
      0 < r.bathrooms ∧
      (deriveFeatures y r).bed_bath_ratio * r.bathrooms = (r.bedrooms : ℚ)) := by
  refine ⟨rfl, ?_, ?_⟩
  · intro hb
    have hv : validRequest r = false := by
      unfold validRequest
      rw [hb]
      norm_num
    unfold handleRequest validateRequest
    rw [hv]
    rfl
  · intro hv
    have hpos : 0 < r.bathrooms := by
      have := (validRequest_facts r hv).1
      linarith
    refine ⟨hpos, ?_⟩
    show (r.bedrooms : ℚ) / r.bathrooms * r.bathrooms = (r.bedrooms : ℚ)
    exact div_mul_cancel₀ _ (ne_of_gt hpos)

/-- Claim C3, witness: the zero-bathroom request is rejected, and on the
schema example request the ratio is a finite quotient. -/
theorem C3_witness :
    handleRequest okArtifacts 2026 "t" zeroBathRequest
      = .error (.invalidInput "Input validation failed") ∧
    0 < goodRequest.bathrooms ∧
    (deriveFeatures 2026 goodRequest).bed_bath_ratio * goodRequest.bathrooms
      = (goodRequest.bedrooms : ℚ) := by
  refine ⟨(C3_bed_bath_ratio okArtifacts 2026 "t" zeroBathRequest).2.1 rfl, ?_, ?_⟩
  · exact ((C3_bed_bath_ratio okArtifacts 2026 "t" goodRequest).2.2
      (by norm_num [validRequest, validLocation, validCondition, goodRequest])).1
  · exact ((C3_bed_bath_ratio okArtifacts 2026 "t" goodRequest).2.2
      (by norm_num [validRequest, validLocation, validCondition, goodRequest])).2

/-- Claim C4: `house_age = current_year − year_built`; when the current
year is at least 2023 (the schema's upper bound on `year_built`), any
request with `year_built` in the future is rejected with an InvalidInput
error at the schema boundary, and every validated request has a
nonnegative derived `house_age`. -/
theorem C4_house_age (A : Artifacts) (y : ℤ) (now : String)
    (r : HousePredictionRequest) (hy : 2023 ≤ y) :
    (deriveFeatures y r).house_age = y - r.year_built ∧
    (y < r.year_built →
      handleRequest A y now r = .error (.invalidInput "Input validation failed")) ∧
    (validRequest r = true → 0 ≤ (deriveFeatures y r).house_age) := by
  refine ⟨rfl, ?_, ?_⟩
  · intro hfuture
    have hyb : ¬ (r.year_built ≤ 2023) := by omega
    have hv : validRequest r = false := by
      simp [validRequest, hyb]
    unfold handleRequest validateRequest
    rw [hv]
    rfl
  · intro hv
    have := (validRequest_facts r hv).2.2
    show 0 ≤ y - r.year_built
    omega

/-- Claim C4, witness at current year 2026: the year-2030 request is
rejected, and the schema example request has nonnegative age. -/
theorem C4_witness :
    (deriveFeatures 2026 futureRequest).house_age = 2026 - futureRequest.year_built ∧
    handleRequest okArtifacts 2026 "t" futureRequest
      = .error (.invalidInput "Input validation failed") ∧
    0 ≤ (deriveFeatures 2026 goodRequest).house_age := by
  refine ⟨(C4_house_age okArtifacts 2026 "t" futureRequest (by norm_num)).1, ?_, ?_⟩
  · exact (C4_house_age okArtifacts 2026 "t" futureRequest (by norm_num)).2.1 (by norm_num [futureRequest])
  · exact (C4_house_age okArtifacts 2026 "t" goodRequest (by norm_num)).2.2
      (by norm_num [validRequest, validLocation, validCondition, goodRequest])

/-- Claim C5: when `batch_predict` succeeds on N requests it returns
exactly N responses, and position by position each response is the result
of `predict_price` on the request at the same index. -/
theorem C5_batch_order (A : Artifacts) (y : ℤ) (now : String) :
    ∀ (reqs : List HousePredictionRequest) (resps : List PredictionResponse),
      batch_predict A y now reqs = .ok resps →
      resps.length = reqs.length ∧
      List.Forall₂ (fun req resp => predict_price A y now req = .ok resp) reqs resps := by
  intro reqs
  induction reqs with
  | nil =>
    intro resps h
    unfold batch_predict at h
    rw [Except.ok.injEq] at h
    subst h
    exact ⟨rfl, List.Forall₂.nil⟩
  | cons req rest ih =>
    intro resps h
    unfold batch_predict at h
    split at h
    · simp at h
    rename_i resp hresp
    split at h
    · simp at h
    rename_i rest' hrest
    rw [Except.ok.injEq] at h
    subst h
    obtain ⟨hlen, hall⟩ := ih rest' hrest
    exact ⟨by simp [hlen], List.Forall₂.cons hresp hall⟩

/-- Claim C5, witness on a concrete two-request batch. -/
theorem C5_witness :
    ([goodResponse, goodResponse] : List PredictionResponse).length
      = ([goodRequest, cexRequest] : List HousePredictionRequest).length ∧
    List.Forall₂ (fun req resp => predict_price okArtifacts 2026 "t" req = .ok resp)
      [goodRequest, cexRequest] [goodResponse, goodResponse] :=
  C5_batch_order okArtifacts 2026 "t" [goodRequest, cexRequest] [goodResponse, goodResponse]
    (by simp [batch_predict, predict_price, okArtifacts, goodResponse]
        norm_num [round2, roundHalfEven])

/-- Claim C6: every prediction either succeeds, or fails with a
`predictionFailed` error whose cause is exactly the error raised by the
transform step or by the scoring step; no other failure shape can leave
`predict_price`. -/
theorem C6_error_translation (A : Artifacts) (y : ℤ) (now : String)
    (r : HousePredictionRequest) :
    (∃ resp, predict_price A y now r = .ok resp) ∨
    (∃ cause, predict_price A y now r = .error (.predictionFailed cause) ∧
      (A.transform (deriveFeatures y r) = .error cause ∨
        ∃ v, A.transform (deriveFeatures y r) = .ok v ∧ A.score v = .error cause)) := by
  cases htr : A.transform (deriveFeatures y r) with
  | error e =>
    refine Or.inr ⟨e, ?_, Or.inl rfl⟩
    unfold predict_price
    rw [htr]
  | ok v =>
    cases hsc : A.score v with
    | error e =>
      refine Or.inr ⟨e, ?_, Or.inr ⟨v, rfl, hsc⟩⟩
      unfold predict_price
      simp only [htr, hsc]
    | ok raw =>
      refine Or.inl ⟨({ predicted_price := round2 raw
                        confidence_interval :=
                          [round2 (round2 raw * (9/10)), round2 (round2 raw * (11/10))]
                        features_importance := []
                        prediction_time := now } : PredictionResponse), ?_⟩
      unfold predict_price
      simp only [htr, hsc]

/-- Claim C7: the derived default `price_per_sqft` is
`base_rate[location] × condition_multiplier[condition]`; Suburb/Good
gives 320 × 1.0 = 320, an unknown location falls back to base rate 300,
and an unknown condition to multiplier 1.0. -/
theorem C7_default_estimate :
    estimatedPricePerSqft "Suburb" "Good" = 320 ∧
    (∀ loc cond, locationPriceEstimates loc = none →
      estimatedPricePerSqft loc cond = 300 * (conditionMultipliers cond).getD 1) ∧
    (∀ loc cond, conditionMultipliers cond = none →
      estimatedPricePerSqft loc cond = (locationPriceEstimates loc).getD 300 * 1) ∧
    (∀ loc cond, estimatedPricePerSqft loc cond =
      (locationPriceEstimates loc).getD 300 * (conditionMultipliers cond).getD 1) := by
  refine ⟨?_, ?_, ?_, fun loc cond => rfl⟩
  · norm_num [estimatedPricePerSqft, locationPriceEstimates, conditionMultipliers]
  · intro loc cond h
    unfold estimatedPricePerSqft
    rw [h]
    rfl
  · intro loc cond h
    unfold estimatedPricePerSqft
    rw [h]
    rfl

/-- Claim C7, witness: an unrecognized location and an unrecognized
condition both take the coded fallbacks. -/
theorem C7_witness :
    estimatedPricePerSqft "Beach" "Good" = 300 * (conditionMultipliers "Good").getD 1 ∧
    estimatedPricePerSqft "Rural" "Renovated" = (locationPriceEstimates "Rural").getD 300 * 1 :=
  ⟨C7_default_estimate.2.1 "Beach" "Good" rfl,
   C7_default_estimate.2.2.1 "Rural" "Renovated" rfl⟩

/-- Claim C8: with the same artifacts and the same current year, two runs
of `predict_price` on the same request agree on everything except the
timestamp: the predicted price and confidence interval are identical. -/
theorem C8_deterministic (A : Artifacts) (y : ℤ) (t1 t2 : String)
    (r : HousePredictionRequest) :
    Except.map responseCore (predict_price A y t1 r) =
    Except.map responseCore (predict_price A y t2 r) := by
  unfold predict_price
  cases htr : A.transform (deriveFeatures y r) with
  | error e => rfl
  | ok v =>
    cases hsc : A.score v with
    | error e => simp only [hsc]
    | ok raw =>
      simp only [hsc]
      rfl

/-- Claim C9: module initialization is fatal as soon as either artifact
load fails — the serving gate then never handles a request — and when both
loads succeed the loaded artifacts are exactly the ones held (and handed
unchanged to every request) for the process lifetime. -/
theorem C9_startup_gate {μ π α : Type} (lm : Except String μ) (lp : Except String π)
    (handler : μ → π → α) :
    (∀ e, lm = .error e →
      moduleInit lm lp = .fatal ("Error loading model or preprocessor: " ++ e) ∧
      serve (moduleInit lm lp) handler = none) ∧
    (∀ m e, lm = .ok m → lp = .error e →
      moduleInit lm lp = .fatal ("Error loading model or preprocessor: " ++ e) ∧
      serve (moduleInit lm lp) handler = none) ∧
    (∀ m p, lm = .ok m → lp = .ok p →
      moduleInit lm lp = .ok m p ∧
      serve (moduleInit lm lp) handler = some (handler m p)) := by
  refine ⟨?_, ?_, ?_⟩
  · intro e he
    subst he
    exact ⟨rfl, rfl⟩
  · intro m e hm hp
    subst hm
    subst hp
    exact ⟨rfl, rfl⟩
  · intro m p hm hp
    subst hm
    subst hp
    exact ⟨rfl, rfl⟩

/-- Claim C9, witness: a missing model file makes startup fatal and the
serving gate returns nothing. -/
theorem C9_witness :
    moduleInit (Except.error "file not found" : Except String ℕ)
        (Except.ok 1 : Except String ℕ)
      = .fatal ("Error loading model or preprocessor: " ++ "file not found") ∧
    serve (moduleInit (Except.error "file not found" : Except String ℕ)
        (Except.ok 1 : Except String ℕ)) (fun m p => m + p) = none :=
  (C9_startup_gate (Except.error "file not found") (Except.ok 1)
    (fun m p => m + p)).1 "file not found" rfl

/-- Claim C10: every successful response carries an empty
`features_importance` mapping. -/
theorem C10_features_importance_empty (A : Artifacts) (y : ℤ) (now : String)
    (r : HousePredictionRequest) (resp : PredictionResponse)
    (hok : predict_price A y now r = .ok resp) :
    resp.features_importance = [] := by
  unfold predict_price at hok
  split at hok
  · simp at hok
  split at hok
  · simp at hok
  rw [Except.ok.injEq] at hok
  subst hok
  rfl

/-- Claim C10, witness on a concrete successful prediction. -/
theorem C10_witness : goodResponse.features_importance = [] :=
  C10_features_importance_empty okArtifacts 2026 "t" goodRequest goodResponse
    (by simp [predict_price, okArtifacts, goodResponse]
        norm_num [round2, roundHalfEven])

end MLOpsLab
